import Mathlib

/-!
Verification development for the elder_helper repository.

The definitions below are a shallow embedding of the closed-loop execution
engine (`src/src/services/executor_service.py`) and of the plan parser
(`src/src/services/planner_service.py`).  Oracle calls (the vision model's
screen analysis, the change-type judge, the goal evaluator, the step
verifier, the replanner's new plan) are modelled as explicit inputs to each
verification cycle; everything the Python code computes deterministically
from those answers is translated as executable Lean functions.

Screenshots are abstracted to `Nat` identifiers and wall-clock times to
`Nat` seconds; neither is inspected by the embedded logic except through
the functions translated below.
-/

namespace ElderHelper

/-- Enum `PageStatus` from `src/src/services/vision_service.py`. -/
inductive PageStatus where
  | normal
  | loading
  | error
  | dialog
  | login
  | unknown
  deriving DecidableEq, Repr

/-- Structure `ScreenStateAnalysis` from `vision_service.py` (the fields read by
`ExecutorService._detect_screen_state_from_analysis`). -/
structure ScreenStateAnalysis where
  app_name : String
  screen_state : String
  page_status : PageStatus
  description : String
  available_elements : List String
  deriving DecidableEq, Repr

/-- Enum `ScreenState` from `executor_service.py`. -/
inductive ScreenState where
  | normal
  | loading
  | error
  | changed
  | unchanged
  deriving DecidableEq, Repr

/-- Enum `StepStatus` from `executor_service.py`. -/
inductive StepStatus where
  | pending
  | waiting_user
  | verifying
  | loading
  | success
  | failed
  | replanning
  deriving DecidableEq, Repr

/-- Enum `StepCompletionResult` from `executor_service.py`. -/
inductive StepCompletionResult where
  | completed
  | task_completed
  | need_retry
  | need_replan
  | waiting
  | timeout
  deriving DecidableEq, Repr

/-- Enum `ActionType` from `src/src/models/action.py` (the skill-set variants). -/
inductive ActionType where
  | click
  | double_click
  | right_click
  | drag
  | scroll
  | type_text
  | key_press
  | hotkey
  | wait
  | wait_element
  | done
  | screenshot
  | speak
  | confirm
  | cancel
  | back
  deriving DecidableEq, Repr

/-- Structure `Action` from `models/action.py` (the fields produced by the planner's
parser and read by the executor). -/
structure Action where
  action_type : ActionType
  element_description : String
  text : Option String
  key : Option String
  hotkey : Option String
  visual_hint : String
  scroll_direction : Option String
  wait_ms : Nat
  deriving DecidableEq, Repr

/-- Structure `TaskStep` from `models/task.py` (the fields the planner fills in and
the executor reads; `src/src/models/task.py` itself is a near-duplicate of
the revision under `src/elderly-assistant-agent`, extended with the
`visual_hint` field its callers pass). -/
structure TaskStep where
  step_number : Nat
  description : String
  friendly_instruction : String
  action : Option Action
  expected_result : String
  error_recovery_hint : String
  visual_hint : String
  deriving DecidableEq, Repr

/-- Structure `ExecutionContext` from `executor_service.py`; screenshots are
abstracted to `Nat` identifiers and `last_user_input_time` to `Nat`
seconds.  `user_feedback` is never set in the modelled runs and is
omitted. -/
structure ExecutionContext where
  plan_steps : List TaskStep
  current_step_index : Nat
  step_status : StepStatus
  last_screenshot : Nat
  last_screen_state : Option ScreenStateAnalysis
  retry_count : Nat
  max_retries : Nat
  last_user_input_time : Option Nat
  idle_timeout : Nat
  task_goal : String
  deriving DecidableEq, Repr

/-- Property `ExecutionContext.current_step` (`executor_service.py`, lines 86-90). -/
def current_step (ctx : ExecutionContext) : Option TaskStep :=
  ctx.plan_steps.get? ctx.current_step_index

/-- Property `ExecutionContext.is_completed` (`executor_service.py`, lines 92-94). -/
def is_completed (ctx : ExecutionContext) : Bool :=
  decide (ctx.current_step_index ≥ ctx.plan_steps.length)

/-- Property `ExecutionContext.seconds_since_last_input` (lines 96-101): while the
last-input timestamp is unset the measure is 0. -/
def seconds_since_last_input (ctx : ExecutionContext) (now : Nat) : Nat :=
  match ctx.last_user_input_time with
  | none => 0
  | some t => now - t

/-- Whether `pat` begins `cs` (character-list prelude of substring search). -/
def chars_begin_with : List Char → List Char → Bool
  | _, [] => true
  | [], _ :: _ => false
  | c :: cs, d :: ds => c == d && chars_begin_with cs ds

/-- Whether `pat` occurs somewhere in `cs`. -/
def chars_contain : List Char → List Char → Bool
  | [], pat => pat.isEmpty
  | c :: cs, pat => chars_begin_with (c :: cs) pat || chars_contain cs pat

/-- Python substring containment `sub in s` for the keyword and repair-table
checks. -/
def contains_sub (s sub : String) : Bool :=
  chars_contain s.data sub.data

/-- Python `str.lower()` (the inputs here are CJK and ASCII, on which
per-character ASCII lowering coincides with Python). -/
def str_lower (s : String) : String :=
  ⟨s.data.map Char.toLower⟩

/-- Python `str.strip()`: drop leading and trailing whitespace. -/
def str_strip (s : String) : String :=
  ⟨((s.data.dropWhile Char.isWhitespace).reverse.dropWhile Char.isWhitespace).reverse⟩

/-- Python `str.split("\n")`: split into lines, keeping empty chunks. -/
def split_newline_chars : List Char → List (List Char)
  | [] => [[]]
  | c :: cs =>
    if c == '\n' then [] :: split_newline_chars cs
    else
      match split_newline_chars cs with
      | l :: ls => (c :: l) :: ls
      | [] => [[c]]

/-- Python `content.split("\n")` as a list of strings. -/
def split_lines (s : String) : List String :=
  (split_newline_chars s.data).map String.mk

/-- Loading keywords from `_detect_screen_state_from_analysis`. -/
def loading_keywords : List String := ["加载", "loading", "请稍候", "正在", "处理中"]

/-- Error keywords from `_detect_screen_state_from_analysis`. -/
def error_keywords : List String := ["错误", "失败", "error", "failed", "无法连接"]

/-- Python `set(a) == set(b)` on the element-name lists. -/
def list_set_eq (a b : List String) : Bool :=
  a.all (fun x => b.contains x) && b.all (fun x => a.contains x)

/-- Method `ExecutorService._detect_screen_state_from_analysis` (lines 783-812),
with the stored `last_screen_state` passed explicitly. -/
def detect_screen_state (last : Option ScreenStateAnalysis)
    (state : ScreenStateAnalysis) : ScreenState :=
  if state.page_status = PageStatus.loading then ScreenState.loading
  else if state.page_status = PageStatus.error then ScreenState.error
  else
    let description := str_lower state.description
    if loading_keywords.any (fun k => contains_sub description k) then ScreenState.loading
    else if error_keywords.any (fun k => contains_sub description k) then ScreenState.error
    else
      match last with
      | some old =>
          if (old.app_name == state.app_name &&
              old.screen_state == state.screen_state &&
              list_set_eq old.available_elements state.available_elements) then
            ScreenState.unchanged
          else ScreenState.changed
      | none => ScreenState.changed

/-- The answers the external oracles give in one step-verification cycle:
the freshly captured screenshot and its analysis, the change-type judge's
dynamic-effect verdict, the sequence of snapshots observed while polling a
loading page, the capture after loading settles, the goal evaluator's
verdict, the step verifier's verdict, and the plan the replanner would
return if invoked this cycle. -/
structure CycleOracles where
  new_screenshot : Nat
  new_state : ScreenStateAnalysis
  is_dynamic_effect : Bool
  loading_polls : List (Nat × ScreenStateAnalysis)
  post_loading_screenshot : Nat
  post_loading_state : ScreenStateAnalysis
  goal_achieved : Bool
  verify_success : Bool
  replan_steps : List TaskStep
  deriving Repr

/-- Constant `max_wait` of `_wait_for_loading_complete` (line 814). -/
def max_wait : Nat := 10

/-- Constant `check_interval` of `_wait_for_loading_complete` (line 817). -/
def check_interval : Nat := 2

/-- The polling recursion of `_wait_for_loading_complete` (lines 819-835):
each poll re-captures and re-classifies; on the first non-loading state the
context snapshots are updated and success is `state ≠ ERROR`; an exhausted
poll list is the timeout (`False`). -/
def wait_for_loading_aux :
    ExecutionContext → List (Nat × ScreenStateAnalysis) → Bool × ExecutionContext
  | ctx, [] => (false, ctx)
  | ctx, (shot, st) :: rest =>
    let s := detect_screen_state ctx.last_screen_state st
    if s = ScreenState.loading then wait_for_loading_aux ctx rest
    else (decide (s ≠ ScreenState.error),
          { ctx with last_screenshot := shot, last_screen_state := some st })

/-- Method `ExecutorService._wait_for_loading_complete` (lines 814-835): at the
fixed 2-second interval at most `max_wait / check_interval` polls fit
before the 10-second cap. -/
def wait_for_loading_complete (ctx : ExecutionContext)
    (polls : List (Nat × ScreenStateAnalysis)) : Bool × ExecutionContext :=
  wait_for_loading_aux ctx (polls.take (max_wait / check_interval))

/-- Snapshot update shared by the tail of `_evaluate_step_and_task`
(lines 614-615, 633-634, 638-639). -/
def update_snapshots (ctx : ExecutionContext) (shot : Nat)
    (st : ScreenStateAnalysis) : ExecutionContext :=
  { ctx with last_screenshot := shot, last_screen_state := some st }

/-- Method `ExecutorService._check_task_goal_achieved` (lines 644-710): returns
`False` when no task goal is stored, otherwise the goal oracle's verdict. -/
def check_task_goal_achieved (ctx : ExecutionContext) (o : CycleOracles) : Bool :=
  if ctx.task_goal = "" then false else o.goal_achieved

/-- Lines 607-642 of `_evaluate_step_and_task`: the overall-goal check,
then per-step verification gated on a nonempty expectation/description. -/
def evaluate_tail (ctx : ExecutionContext) (step : TaskStep) (o : CycleOracles)
    (shot : Nat) (st : ScreenStateAnalysis) :
    StepCompletionResult × ExecutionContext :=
  if check_task_goal_achieved ctx o then
    (StepCompletionResult.task_completed, update_snapshots ctx shot st)
  else if step.expected_result ≠ "" ∨ step.description ≠ "" then
    if o.verify_success then
      (StepCompletionResult.completed, update_snapshots ctx shot st)
    else (StepCompletionResult.need_retry, update_snapshots ctx shot st)
  else (StepCompletionResult.completed, update_snapshots ctx shot st)

/-- Method `ExecutorService._evaluate_step_and_task` (lines 547-642).  Note the
two behaviours the spec's claims exercise: a loading timeout returns
`need_retry` (lines 582-583), and the unchanged/no-op branch increments
the retry counter and, once the counter is no longer under budget, falls
through to the goal/step checks instead of returning (lines 600-605). -/
def evaluate_step_and_task (ctx : ExecutionContext) (step : TaskStep)
    (o : CycleOracles) : StepCompletionResult × ExecutionContext :=
  let st0 := detect_screen_state ctx.last_screen_state o.new_state
  if st0 = ScreenState.loading then
    let r := wait_for_loading_complete ctx o.loading_polls
    if r.1 then evaluate_tail r.2 step o o.post_loading_screenshot o.post_loading_state
    else (StepCompletionResult.need_retry, r.2)
  else if st0 = ScreenState.error then (StepCompletionResult.need_replan, ctx)
  else if st0 = ScreenState.unchanged then
    if o.is_dynamic_effect then (StepCompletionResult.waiting, ctx)
    else
      let ctx1 := { ctx with retry_count := ctx.retry_count + 1 }
      if ctx1.retry_count < ctx1.max_retries then
        (StepCompletionResult.need_retry, ctx1)
      else evaluate_tail ctx1 step o o.new_screenshot o.new_state
  else evaluate_tail ctx step o o.new_screenshot o.new_state

/-- The tail of `_replan` (lines 875-883): a nonempty new plan replaces the
remaining plan, resets the cursor and the retry counter; an empty one only
marks the step failed (the loop keeps running). -/
def replan_apply (ctx : ExecutionContext) (new_plan : List TaskStep) :
    ExecutionContext :=
  let ctx1 := { ctx with step_status := StepStatus.replanning }
  if new_plan.isEmpty then { ctx1 with step_status := StepStatus.failed }
  else { ctx1 with plan_steps := new_plan, current_step_index := 0, retry_count := 0 }

/-- Method `ExecutorService._handle_step_failure` (lines 837-848): marks the step
failed, increments the retry counter and replans once the counter reaches
the budget. -/
def handle_step_failure (ctx : ExecutionContext) (replan_steps : List TaskStep) :
    ExecutionContext :=
  let ctx1 := { ctx with step_status := StepStatus.failed,
                          retry_count := ctx.retry_count + 1 }
  if ctx1.retry_count ≥ ctx1.max_retries then replan_apply ctx1 replan_steps
  else ctx1

/-- The result dispatch of `_execution_loop` (lines 476-510).  The returned
`Bool` is whether the loop `break`s.  Note that the `need_retry` arm
increments the retry counter again (line 497) on top of any increment done
inside `_evaluate_step_and_task`. -/
def loop_handle_result (ctx : ExecutionContext) (res : StepCompletionResult)
    (replan_steps : List TaskStep) : ExecutionContext × Bool :=
  match res with
  | StepCompletionResult.task_completed =>
      ({ ctx with current_step_index := ctx.plan_steps.length }, true)
  | StepCompletionResult.completed =>
      ({ ctx with step_status := StepStatus.success,
                  current_step_index := ctx.current_step_index + 1,
                  retry_count := 0 }, false)
  | StepCompletionResult.need_retry =>
      let ctx1 := { ctx with retry_count := ctx.retry_count + 1 }
      if ctx1.retry_count ≥ ctx1.max_retries then
        (handle_step_failure ctx1 replan_steps, false)
      else (ctx1, false)
  | StepCompletionResult.need_replan => (handle_step_failure ctx replan_steps, false)
  | StepCompletionResult.waiting => (ctx, false)
  | StepCompletionResult.timeout => (ctx, false)

/-- What `_wait_for_user_input` resolves to in one pass of the loop: either
a user input event arrives (with the oracle answers of the verification
cycle it triggers), or no event arrives and the loop re-checks the idle
timer at time `now`. -/
inductive LoopEvent where
  | input : Nat → CycleOracles → LoopEvent
  | no_input : Nat → LoopEvent

/-- How a modelled run of `_execution_loop` ended: the `while` loop exited
(by `break` or its condition), or the supplied event horizon ran out while
the loop was still going. -/
inductive ExitKind where
  | finished
  | events_exhausted
  deriving DecidableEq, Repr

/-- Observable outcome of one run: the final context, every step
announcement (`step_number` of each step whose instruction text and
`on_step_start` callback were emitted, in order), the number of waits for
a completion signal, the number of "need help?" questions asked by the
idle-timeout branch, and how the loop ended. -/
structure RunResult where
  ctx : ExecutionContext
  announced : List Nat
  waits : Nat
  questions : Nat
  exit_kind : ExitKind

/-- The check at line 448: `step.action and step.action.action_type == DONE`. -/
def step_is_done (step : TaskStep) : Bool :=
  match step.action with
  | some a => a.action_type = ActionType.done
  | none => false

/-- Outcome of the pre-wait phase of one `while` iteration of
`_execution_loop` (lines 435-454): either the loop halts before waiting —
the `while` condition or line 437 failed (no announcement), or the
just-announced step was `done` (lines 447-454) — or the announced current
step proceeds to the wait. -/
inductive PreWait where
  | halt : ExecutionContext → Option Nat → PreWait
  | proceed : TaskStep → PreWait

/-- Lines 435-454 of `_execution_loop`: the loop-exit checks, the step
announcement (lines 441-445, which precedes the `done` check), and the
`done` short-circuit. -/
def pre_wait (ctx : ExecutionContext) : PreWait :=
  if is_completed ctx then PreWait.halt ctx none
  else
    match current_step ctx with
    | none => PreWait.halt ctx none
    | some step =>
      if step_is_done step then
        PreWait.halt { ctx with step_status := StepStatus.success,
                                current_step_index := ctx.plan_steps.length }
          (some step.step_number)
      else PreWait.proceed step

/-- Push an optional announcement onto the log. -/
def ann_push (a : Option Nat) (ann : List Nat) : List Nat :=
  match a with
  | some k => k :: ann
  | none => ann

/-- One post-wait transition of `_execution_loop` for an arriving input
event (lines 463-510): record the input time, run the verification cycle,
dispatch on its result. -/
def loop_input_step (ctx : ExecutionContext) (step : TaskStep) (ts : Nat)
    (o : CycleOracles) : ExecutionContext × Bool :=
  let ctx3 := { ctx with last_user_input_time := some ts,
                         step_status := StepStatus.verifying }
  let er := evaluate_step_and_task ctx3 step o
  loop_handle_result er.2 er.1 o.replan_steps

/-- Method `ExecutorService._execution_loop` (lines 425-523), driven by the listed
events (one per pass through the completion-signal wait).  Each iteration
runs the pre-wait phase, then waits; an arriving input records its
timestamp and runs the verification cycle; absent input, the idle-timeout
branch (lines 512-516) fires only when `seconds_since_last_input` reaches
`idle_timeout`, asking a question and resetting the timer
(`_handle_timeout`, lines 770-781). -/
def execution_loop : List LoopEvent → ExecutionContext → List Nat → Nat → Nat → RunResult
  | [], ctx, ann, waits, qs =>
    (match pre_wait ctx with
     | PreWait.halt ctx1 a => ⟨ctx1, (ann_push a ann).reverse, waits, qs, ExitKind.finished⟩
     | PreWait.proceed step =>
       ⟨{ ctx with step_status := StepStatus.waiting_user },
        (step.step_number :: ann).reverse, waits + 1, qs, ExitKind.events_exhausted⟩)
  | ev :: rest, ctx, ann, waits, qs =>
    (match pre_wait ctx with
     | PreWait.halt ctx1 a => ⟨ctx1, (ann_push a ann).reverse, waits, qs, ExitKind.finished⟩
     | PreWait.proceed step =>
       let ann1 := step.step_number :: ann
       let ctx2 := { ctx with step_status := StepStatus.waiting_user }
       match ev with
       | LoopEvent.input ts o =>
         let hr := loop_input_step ctx2 step ts o
         if hr.2 then ⟨hr.1, ann1.reverse, waits + 1, qs, ExitKind.finished⟩
         else execution_loop rest hr.1 ann1 (waits + 1) qs
       | LoopEvent.no_input now =>
         if seconds_since_last_input ctx2 now ≥ ctx2.idle_timeout then
           let ctx3 := { ctx2 with last_user_input_time := some now }
           execution_loop rest ctx3 ann1 (waits + 1) (qs + 1)
         else execution_loop rest ctx2 ann1 (waits + 1) qs)

/-- Whole-run status as reported by `execute_task` after the loop
(lines 408-414); `in_progress` marks a run whose loop was still going when
the modelled event horizon ended. -/
inductive TaskStatus where
  | completed
  | failed
  | in_progress
  deriving DecidableEq, Repr

/-- Status of a finished or still-running modelled run. -/
def run_status (r : RunResult) : TaskStatus :=
  match r.exit_kind with
  | ExitKind.finished =>
      if is_completed r.ctx then TaskStatus.completed else TaskStatus.failed
  | ExitKind.events_exhausted => TaskStatus.in_progress

/-- The `ExecutionContext(...)` construction of `execute_task`
(lines 396-403). -/
def init_context (plan : List TaskStep) (shot : Nat)
    (state : Option ScreenStateAnalysis) (goal : String) : ExecutionContext :=
  { plan_steps := plan
    current_step_index := 0
    step_status := StepStatus.pending
    last_screenshot := shot
    last_screen_state := state
    retry_count := 0
    max_retries := 3
    last_user_input_time := none
    idle_timeout := 30
    task_goal := goal }

/-- Method `ExecutorService.execute_task` (lines 336-423) for an internally
generated plan: an empty plan fails without entering the per-step loop
(lines 388-391, returning `none` for the never-produced run); otherwise the
loop runs from a fresh context. -/
def execute_task (plan : List TaskStep) (shot : Nat)
    (state : Option ScreenStateAnalysis) (goal : String)
    (events : List LoopEvent) : TaskStatus × Option RunResult :=
  if plan.isEmpty then (TaskStatus.failed, none)
  else
    let r := execution_loop events (init_context plan shot state goal) [] 0 0
    (run_status r, some r)

/-! ## Planner: plan parsing (`src/src/services/planner_service.py`) -/

/-- Set `VALID_SKILL_TYPES` from `PlannerService._parse_plan` (lines 502-508):
the twelve canonical operation kinds. -/
def VALID_SKILL_TYPES : List String :=
  ["单击", "双击", "右键单击", "拖动",
   "向上滚动", "向下滚动",
   "输入", "按下", "组合键",
   "等待", "等待出现",
   "完成"]

/-- Table `fix_mapping` from `_fix_invalid_skill_type` (lines 581-610), as an
association list in the source's insertion order (the order matters for
the substring pass). -/
def fix_mapping : List (String × String) :=
  [("点击", "单击"), ("左键点击", "单击"), ("左键单击", "单击"),
   ("鼠标点击", "单击"), ("click", "单击"),
   ("双击打开", "双击"), ("double_click", "双击"),
   ("右键点击", "右键单击"), ("右击", "右键单击"), ("right_click", "右键单击"),
   ("拖拽", "拖动"), ("drag", "拖动"),
   ("滚动", "向下滚动"), ("scroll", "向下滚动"),
   ("向上滑动", "向上滚动"), ("向下滑动", "向下滚动"),
   ("键入", "输入"), ("打字", "输入"), ("type", "输入"),
   ("按键", "按下"), ("press", "按下"),
   ("快捷键", "组合键"), ("hotkey", "组合键"),
   ("等一下", "等待"), ("wait", "等待"),
   ("done", "完成"), ("结束", "完成"), ("任务完成", "完成")]

/-- Method `PlannerService._fix_invalid_skill_type` (lines 578-621): exact lookup
of the lowercased string first, then the first mapping key that occurs as a
substring, otherwise the input unchanged. -/
def fix_invalid_skill_type (skill_type : String) : String :=
  let low := str_lower skill_type
  match fix_mapping.find? (fun p => p.1 == low) with
  | some p => p.2
  | none =>
    match fix_mapping.find? (fun p => contains_sub low p.1) with
    | some p => p.2
    | none => skill_type

/-- The validation block of `_parse_plan` (lines 524-531): accept a
canonical skill string as is, otherwise attempt the repair table and accept
only if the repaired string is canonical. -/
def resolve_skill_type (s : String) : Option String :=
  if VALID_SKILL_TYPES.contains s then some s
  else
    let f := fix_invalid_skill_type s
    if VALID_SKILL_TYPES.contains f then some f else none

/-- Method `_skill_type_to_action_type` (lines 623-639); the source dictionary has
distinct keys, so the `if` chain with the `CLICK` default is its `get`. -/
def skill_type_to_action_type (s : String) : ActionType :=
  if s = "单击" then ActionType.click
  else if s = "双击" then ActionType.double_click
  else if s = "右键单击" then ActionType.right_click
  else if s = "拖动" then ActionType.drag
  else if s = "向上滚动" then ActionType.scroll
  else if s = "向下滚动" then ActionType.scroll
  else if s = "输入" then ActionType.type_text
  else if s = "按下" then ActionType.key_press
  else if s = "组合键" then ActionType.hotkey
  else if s = "等待" then ActionType.wait
  else if s = "等待出现" then ActionType.wait_element
  else if s = "完成" then ActionType.done
  else ActionType.click

/-- One entry of the decoded `steps` array handed to `_parse_plan`: each
field is `none` when the oracle's JSON omitted the key (the `dict.get`
defaults below reproduce lines 521-565). -/
structure StepData where
  step_number : Option Nat
  skill_type : Option String
  target : Option String
  text : Option String
  key : Option String
  hotkey : Option String
  wait_seconds : Option Nat
  visual_hint : Option String
  expected_result : Option String
  error_recovery : Option String
  friendly_description : Option String
  deriving DecidableEq, Repr

/-- The `Action`/`TaskStep` construction of `_parse_plan` (lines 533-566)
for a step whose resolved skill string is `s`; `position` is
`len(plan.steps) + 1`, the default step number. -/
def build_parsed_step (d : StepData) (s : String) (position : Nat) : TaskStep :=
  let a : Action :=
    { action_type := skill_type_to_action_type s
      element_description := d.target.getD ""
      text := d.text
      key := d.key
      hotkey := d.hotkey
      visual_hint := d.visual_hint.getD ""
      scroll_direction :=
        if s = "向上滚动" then some "up"
        else if s = "向下滚动" then some "down"
        else none
      wait_ms := if s = "等待" then (d.wait_seconds.getD 1) * 1000 else 0 }
  { step_number := d.step_number.getD position
    description := s ++ "\x7b" ++ d.target.getD "" ++ "\x7d"
    friendly_instruction := d.friendly_description.getD ""
    action := some a
    expected_result := d.expected_result.getD ""
    error_recovery_hint := d.error_recovery.getD ""
    visual_hint := d.visual_hint.getD "" }

/-- The step loop of `_parse_plan` (lines 519-566): a step whose skill
string cannot be resolved to a canonical kind is dropped (`continue`,
line 531). -/
def parse_plan_steps : List StepData → List TaskStep → List TaskStep
  | [], acc => acc.reverse
  | d :: rest, acc =>
    let s0 := d.skill_type.getD "单击"
    match resolve_skill_type s0 with
    | none => parse_plan_steps rest acc
    | some s => parse_plan_steps rest (build_parsed_step d s (acc.length + 1) :: acc)

/-- Method `PlannerService._parse_plan` (lines 495-576) applied to a successfully
decoded `steps` array. -/
def parse_plan (datas : List StepData) : List TaskStep :=
  parse_plan_steps datas []

/-- The character set of `line.lstrip("0123456789.-•) ")` (line 657). -/
def lstrip_chars : List Char :=
  ['0', '1', '2', '3', '4', '5', '6', '7', '8', '9', '.', '-', '•', ')', ' ']

/-- The step-line test of `_parse_plan_from_text` (line 654):
`line[0].isdigit() or line.startswith("-") or line.startswith("•")`. -/
def is_step_line (line : String) : Bool :=
  (match line.data with
   | c :: _ => c.isDigit
   | [] => false) ||
  chars_begin_with line.data "-".data || chars_begin_with line.data "•".data

/-- The per-line loop of `_parse_plan_from_text` (lines 645-668): blank
lines are skipped, a qualifying line becomes a click step whose cleaned
text is both description and target, and every other line is skipped. -/
def parse_text_lines : List String → Nat → List TaskStep → List TaskStep
  | [], _, acc => acc.reverse
  | l :: rest, n, acc =>
    let line := str_strip l
    if line = "" then parse_text_lines rest n acc
    else if is_step_line line then
      let text := str_strip ⟨line.data.dropWhile (fun c => lstrip_chars.contains c)⟩
      let step : TaskStep :=
        { step_number := n + 1
          description := text
          friendly_instruction := text
          action := some
            { action_type := ActionType.click
              element_description := text
              text := none
              key := none
              hotkey := none
              visual_hint := ""
              scroll_direction := none
              wait_ms := 0 }
          expected_result := ""
          error_recovery_hint := ""
          visual_hint := "" }
      parse_text_lines rest (n + 1) (step :: acc)
    else parse_text_lines rest n acc

/-- Method `PlannerService._parse_plan_from_text` (lines 641-670), the fallback
parser used when JSON decoding of the oracle response fails
(lines 572-575). -/
def parse_plan_from_text (content : String) : List TaskStep :=
  parse_text_lines (split_lines (str_strip content)) 0 []

/-- Spec-side predicate for C7 (`contiguous starting at 1`): the `k`-th
step of the list is numbered `k`. -/
def numbered_from (k : Nat) : List TaskStep → Bool
  | [] => true
  | s :: rest => s.step_number = k && numbered_from (k + 1) rest

/-- Spec-side predicate for C7: step numbers are 1, 2, 3, …. -/
def contiguous_from_one (l : List TaskStep) : Bool :=
  numbered_from 1 l

/-- The eleven `ActionType` values reachable from the twelve canonical
skill strings (the two scroll kinds share `scroll`, distinguished by
`scroll_direction`). -/
def canonical_action_types : List ActionType :=
  [ActionType.click, ActionType.double_click, ActionType.right_click,
   ActionType.drag, ActionType.scroll, ActionType.type_text,
   ActionType.key_press, ActionType.hotkey, ActionType.wait,
   ActionType.wait_element, ActionType.done]

/-- A step whose action carries a canonical operation kind. -/
def step_kind_canonical (step : TaskStep) : Bool :=
  match step.action with
  | some a => canonical_action_types.contains a.action_type
  | none => false

/-! ## Concrete fixtures used by witnesses and counterexamples -/

/-- A settled notepad screen analysis. -/
def A0 : ScreenStateAnalysis :=
  ⟨"记事本", "主界面", PageStatus.normal, "", []⟩

/-- A settled browser screen analysis (differs from `A0` in every field the
unchanged-test compares). -/
def B0 : ScreenStateAnalysis :=
  ⟨"浏览器", "主页", PageStatus.normal, "", []⟩

/-- A loading screen analysis. -/
def L0 : ScreenStateAnalysis :=
  ⟨"浏览器", "页面", PageStatus.loading, "", []⟩

/-- A click step with a nonempty expected result, as the planner builds. -/
def step1 : TaskStep :=
  { step_number := 1
    description := "单击\x7b开始按钮\x7d"
    friendly_instruction := "请点击开始按钮"
    action := some { action_type := ActionType.click
                     element_description := "开始按钮"
                     text := none, key := none, hotkey := none
                     visual_hint := "", scroll_direction := none, wait_ms := 0 }
    expected_result := "开始菜单弹出"
    error_recovery_hint := ""
    visual_hint := "" }

/-- A second plan step (used where steps remain after the first). -/
def step2 : TaskStep :=
  { step1 with step_number := 2, description := "输入\x7b微信\x7d" }

/-- A distinctive replacement step a replan could return. -/
def step_r : TaskStep :=
  { step1 with step_number := 9 }

/-- A `done` step as the planner builds for an already-satisfied goal. -/
def done_step : TaskStep :=
  { step1 with
    description := "完成\x7b\x7d"
    expected_result := ""
    action := some { action_type := ActionType.done
                     element_description := ""
                     text := none, key := none, hotkey := none
                     visual_hint := "", scroll_direction := none, wait_ms := 0 } }

/-- Oracle answers for a no-op cycle: the screen analysis equals the stored
one (hence `UNCHANGED`), the change judge denies a dynamic effect, the goal
evaluator and the step verifier both say no, and a replan would come back
empty. -/
def o_noop : CycleOracles :=
  { new_screenshot := 7
    new_state := A0
    is_dynamic_effect := false
    loading_polls := []
    post_loading_screenshot := 0
    post_loading_state := A0
    goal_achieved := false
    verify_success := false
    replan_steps := [] }

/-- As `o_noop` but a replan would return the one-step plan `[step_r]`. -/
def o_noop2 : CycleOracles :=
  { o_noop with replan_steps := [step_r] }

/-- A no-op cycle the change judge blames on a dynamic page effect. -/
def o_dyn : CycleOracles :=
  { o_noop with is_dynamic_effect := true }

/-- A changed screen on which the goal evaluator reports the overall intent
satisfied. -/
def o_goal : CycleOracles :=
  { o_noop with new_state := B0, goal_achieved := true }

/-- A cycle that captures a loading screen and keeps observing loading
states at every poll until past the cap. -/
def o_load : CycleOracles :=
  { o_noop with
    new_state := L0
    loading_polls := [(1, L0), (2, L0), (3, L0), (4, L0), (5, L0), (6, L0)] }

/-- Context at the start of a one-step run over `step1`. -/
def ctx_b : ExecutionContext := init_context [step1] 0 (some A0) "打开微信"

/-- Context at the start of a two-step run over `step1, step2`. -/
def ctx_c : ExecutionContext := init_context [step1, step2] 0 (some A0) "看新闻"

/-- A step-number-5 single-click step record as an oracle might emit it. -/
def d5 : StepData :=
  ⟨some 5, some "单击", some "开始按钮", none, none, none, none, none, none, none, none⟩

/-- A step record with a repairable off-grammar skill string. -/
def d_fix : StepData :=
  ⟨some 1, some "点击", some "开始按钮", none, none, none, none, none, none, none, none⟩

/-- A step record with an unrepairable skill string. -/
def d_bad : StepData :=
  ⟨some 2, some "飞行", some "月球", none, none, none, none, none, none, none, none⟩

/-- Spec-side shape of a text-fallback step (C9): a click action whose
target and friendly instruction are the step's description text. -/
def text_step_shape (step : TaskStep) : Bool :=
  match step.action with
  | some a =>
      a.action_type == ActionType.click &&
      a.element_description == step.description &&
      step.friendly_instruction == step.description
  | none => false

/-! ## Helper lemmas -/

/-- The goal/step-verification tail never touches the retry counter. -/
theorem evaluate_tail_retry (ctx : ExecutionContext) (step : TaskStep)
    (o : CycleOracles) (shot : Nat) (st : ScreenStateAnalysis) :
    ((evaluate_tail ctx step o shot st).2).retry_count = ctx.retry_count := by
  unfold evaluate_tail update_snapshots
  repeat' split
  all_goals rfl

/-- A run position with a current step is not a completed run. -/
theorem not_completed_of_current_step (ctx : ExecutionContext) (step : TaskStep)
    (h : current_step ctx = some step) : is_completed ctx = false := by
  unfold current_step at h
  unfold is_completed
  have hlt := List.get?_eq_some.mp h
  simp only [decide_eq_false_iff_not, not_le]
  exact hlt.1

/-- The pre-wait phase proceeds to the wait exactly on a current step that
is not `done`. -/
theorem pre_wait_proceed (ctx : ExecutionContext) (step : TaskStep)
    (hstep : current_step ctx = some step) (hdone : step_is_done step = false) :
    pre_wait ctx = PreWait.proceed step := by
  have hnc := not_completed_of_current_step ctx step hstep
  simp [pre_wait, hnc, hstep, hdone]

/-! ## Claims -/

/-- C1: in a step-verification cycle classified `Unchanged`, a
dynamic-effect verdict makes the evaluation return `waiting` with the
`ExecutionContext` untouched (so in particular the retry counter, the step
cursor and the stored before-snapshot are unchanged) and the loop's
handling of `waiting` keeps waiting without a break or any context change;
a no-op verdict always increments the step retry counter. -/
theorem c1_unchanged_dynamic_vs_noop (ctx : ExecutionContext) (step : TaskStep)
    (o : CycleOracles)
    (h : detect_screen_state ctx.last_screen_state o.new_state = ScreenState.unchanged) :
    (o.is_dynamic_effect = true →
      evaluate_step_and_task ctx step o = (StepCompletionResult.waiting, ctx) ∧
      loop_handle_result ctx StepCompletionResult.waiting o.replan_steps = (ctx, false)) ∧
    (o.is_dynamic_effect = false →
      ((evaluate_step_and_task ctx step o).2).retry_count = ctx.retry_count + 1) := by
  constructor
  · intro hd
    refine ⟨?_, rfl⟩
    simp [evaluate_step_and_task, h, hd]
  · intro hd
    simp [evaluate_step_and_task, h, hd, evaluate_tail_retry]
    split
    · simp
    · simp [evaluate_tail_retry]

/-- Witness for C1 at a concrete unchanged screen. -/
theorem c1_witness :
    detect_screen_state ctx_b.last_screen_state o_dyn.new_state = ScreenState.unchanged ∧
    ((o_dyn.is_dynamic_effect = true →
      evaluate_step_and_task ctx_b step1 o_dyn = (StepCompletionResult.waiting, ctx_b) ∧
      loop_handle_result ctx_b StepCompletionResult.waiting o_dyn.replan_steps = (ctx_b, false)) ∧
    (o_dyn.is_dynamic_effect = false →
      ((evaluate_step_and_task ctx_b step1 o_dyn).2).retry_count = ctx_b.retry_count + 1)) :=
  ⟨by decide, c1_unchanged_dynamic_vs_noop ctx_b step1 o_dyn (by decide)⟩

/-- C2 counterexample: with retry budget 3, the very first `Unchanged`/no-op
verification cycle leaves the retry counter at 2, not 1 — the evaluation
increments it once and the loop's `need_retry` handling increments it
again. -/
theorem c2_counterexample :
    (execution_loop [LoopEvent.input 5 o_noop] ctx_b [] 0 0).ctx.retry_count = 2 ∧
    (2 : Nat) ≠ 1 := by decide

/-- C2 amended: with retry budget 3, each `Unchanged`/no-op evaluation
increments the retry counter twice (evaluation plus loop handling), so the
counter is 2 after the first such cycle with the cursor still on the same
step; during the second consecutive no-op cycle the counter reaches the
budget inside the evaluation, the unchanged branch falls through to step
verification, and its failure drives the counter over budget (4, then 5 in
the failure handler), triggering the replan — i.e. the replan fires on the
2nd consecutive no-op evaluation, not the 4th. -/
theorem c2_amended_trace :
    (execution_loop [LoopEvent.input 5 o_noop] ctx_b [] 0 0).ctx.retry_count = 2 ∧
    (execution_loop [LoopEvent.input 5 o_noop] ctx_b [] 0 0).ctx.current_step_index = 0 ∧
    (execution_loop
      [LoopEvent.input 5 o_noop, LoopEvent.input 6 o_noop2] ctx_b [] 0 0).ctx.plan_steps = [step_r] ∧
    (execution_loop
      [LoopEvent.input 5 o_noop, LoopEvent.input 6 o_noop2] ctx_b [] 0 0).ctx.current_step_index = 0 ∧
    (execution_loop
      [LoopEvent.input 5 o_noop, LoopEvent.input 6 o_noop2] ctx_b [] 0 0).ctx.retry_count = 0 ∧
    (execution_loop
      [LoopEvent.input 5 o_noop, LoopEvent.input 6 o_noop2] ctx_b [] 0 0).announced = [1, 1, 9] := by
  decide

/-- C3: whenever a verification cycle sees a changed screen and the goal
evaluator judges the overall intent satisfied, the loop breaks at once:
the run result does not depend on any later events, the loop finishes with
status `Completed`, and the announcement log stops at the current step —
no later step is ever announced or executed, however many steps remain. -/
theorem c3_goal_short_circuit (ctx : ExecutionContext) (step : TaskStep)
    (o : CycleOracles) (ts : Nat) (rest : List LoopEvent) (ann : List Nat)
    (waits qs : Nat)
    (hstep : current_step ctx = some step)
    (hdone : step_is_done step = false)
    (hchg : detect_screen_state ctx.last_screen_state o.new_state = ScreenState.changed)
    (hgoal : o.goal_achieved = true)
    (htg : ctx.task_goal ≠ "") :
    execution_loop (LoopEvent.input ts o :: rest) ctx ann waits qs =
      execution_loop [LoopEvent.input ts o] ctx ann waits qs ∧
    (execution_loop (LoopEvent.input ts o :: rest) ctx ann waits qs).exit_kind =
      ExitKind.finished ∧
    run_status (execution_loop (LoopEvent.input ts o :: rest) ctx ann waits qs) =
      TaskStatus.completed ∧
    (execution_loop (LoopEvent.input ts o :: rest) ctx ann waits qs).announced =
      (step.step_number :: ann).reverse := by
  have hpw : pre_wait ctx = PreWait.proceed step := pre_wait_proceed ctx step hstep hdone
  refine ⟨?_, ?_, ?_, ?_⟩ <;>
  · simp [execution_loop, hpw, loop_input_step, evaluate_step_and_task, hchg,
          evaluate_tail, check_task_goal_achieved, htg, hgoal, loop_handle_result,
          run_status, is_completed]

/-- Witness for C3: a two-step plan where during step 1 the goal evaluator
reports the goal met; later events (the remaining step) never run. -/
theorem c3_witness :
    current_step ctx_c = some step1 ∧
    step_is_done step1 = false ∧
    detect_screen_state ctx_c.last_screen_state o_goal.new_state = ScreenState.changed ∧
    o_goal.goal_achieved = true ∧
    ctx_c.task_goal ≠ "" ∧
    (execution_loop (LoopEvent.input 5 o_goal :: [LoopEvent.no_input 50]) ctx_c [] 0 0 =
       execution_loop [LoopEvent.input 5 o_goal] ctx_c [] 0 0 ∧
     (execution_loop (LoopEvent.input 5 o_goal :: [LoopEvent.no_input 50]) ctx_c [] 0 0).exit_kind =
       ExitKind.finished ∧
     run_status (execution_loop (LoopEvent.input 5 o_goal :: [LoopEvent.no_input 50]) ctx_c [] 0 0) =
       TaskStatus.completed ∧
     (execution_loop (LoopEvent.input 5 o_goal :: [LoopEvent.no_input 50]) ctx_c [] 0 0).announced =
       (step1.step_number :: []).reverse) :=
  ⟨by decide, by decide, by decide, by decide, by decide,
   c3_goal_short_circuit ctx_c step1 o_goal 5 [LoopEvent.no_input 50] [] 0 0
     (by decide) (by decide) (by decide) (by decide) (by decide)⟩

/-- C4 counterexample: on a plan whose only step is `done`, the engine's
loop announces that step (status text and `on_step_start` fire at
lines 441-445 before the `done` check at line 448), so the announcement
log is `[1]`, not empty as the claim requires. -/
theorem c4_counterexample :
    (execution_loop [] (init_context [done_step] 0 (some A0) "") [] 0 0).announced = [1] ∧
    ([1] : List Nat) ≠ [] := by decide

/-- C4 amended: for every plan whose first step's skill is `done`, the run
ends `Completed` immediately with zero waits for a completion signal and no
verification cycle — but the `done` step itself is announced first (and it
is the only announcement). -/
theorem c4_done_first_step (s : TaskStep) (tl : List TaskStep) (shot : Nat)
    (st : Option ScreenStateAnalysis) (goal : String) (events : List LoopEvent)
    (h : step_is_done s = true) :
    (execute_task (s :: tl) shot st goal events).1 = TaskStatus.completed ∧
    (execution_loop events (init_context (s :: tl) shot st goal) [] 0 0).announced =
      [s.step_number] ∧
    (execution_loop events (init_context (s :: tl) shot st goal) [] 0 0).waits = 0 ∧
    (execution_loop events (init_context (s :: tl) shot st goal) [] 0 0).exit_kind =
      ExitKind.finished := by
  have hpw : pre_wait (init_context (s :: tl) shot st goal) =
      PreWait.halt { init_context (s :: tl) shot st goal with
                     step_status := StepStatus.success,
                     current_step_index := tl.length + 1 } (some s.step_number) := by
    simp [pre_wait, is_completed, init_context, current_step, h]
  cases events with
  | nil =>
    refine ⟨?_, ?_, ?_, ?_⟩ <;>
    · simp only [execute_task, execution_loop, List.isEmpty_cons, Bool.false_eq_true,
                 if_false]
      try rw [hpw]
      try simp [ann_push, run_status, is_completed, init_context]
  | cons ev rest =>
    refine ⟨?_, ?_, ?_, ?_⟩ <;>
    · simp only [execute_task, execution_loop, List.isEmpty_cons, Bool.false_eq_true,
                 if_false]
      try rw [hpw]
      try simp [ann_push, run_status, is_completed, init_context]

/-- Witness for C4 at a concrete one-step `done` plan with events pending
(none are consumed). -/
theorem c4_witness :
    step_is_done done_step = true ∧
    ((execute_task [done_step] 0 (some A0) "打开微信"
        [LoopEvent.no_input 3]).1 = TaskStatus.completed ∧
     (execution_loop [LoopEvent.no_input 3]
        (init_context [done_step] 0 (some A0) "打开微信") [] 0 0).announced =
       [done_step.step_number] ∧
     (execution_loop [LoopEvent.no_input 3]
        (init_context [done_step] 0 (some A0) "打开微信") [] 0 0).waits = 0 ∧
     (execution_loop [LoopEvent.no_input 3]
        (init_context [done_step] 0 (some A0) "打开微信") [] 0 0).exit_kind =
       ExitKind.finished) :=
  ⟨by decide,
   c4_done_first_step done_step [] 0 (some A0) "打开微信" [LoopEvent.no_input 3] (by decide)⟩

/-- C5 counterexample: a run in which the retry budget is exhausted and the
replanner returns an empty plan does not end `Failed` — the loop marks the
step failed, keeps the plan and cursor, and goes on re-announcing the same
step (announcement log `[1, 1, 1, 1]`, run still in progress). -/
theorem c5_counterexample :
    run_status (execution_loop
      [LoopEvent.input 5 o_noop, LoopEvent.input 6 o_noop, LoopEvent.no_input 100]
      ctx_b [] 0 0) = TaskStatus.in_progress ∧
    TaskStatus.in_progress ≠ TaskStatus.failed ∧
    (execution_loop
      [LoopEvent.input 5 o_noop, LoopEvent.input 6 o_noop, LoopEvent.no_input 100]
      ctx_b [] 0 0).announced = [1, 1, 1, 1] ∧
    (execution_loop
      [LoopEvent.input 5 o_noop, LoopEvent.input 6 o_noop, LoopEvent.no_input 100]
      ctx_b [] 0 0).ctx.plan_steps = [step1] := by decide

/-- C5 amended: an empty initial plan ends the run `Failed` without
entering the per-step loop; an empty plan returned by replan, however, does
not terminate the run — `_replan` only marks the step status failed,
leaving the plan and cursor untouched, and the `need_replan` handling never
breaks the loop (`ExecutorService` has no run-level replan budget). -/
theorem c5_empty_plan_paths (shot : Nat) (st : Option ScreenStateAnalysis)
    (goal : String) (events : List LoopEvent) (ctx : ExecutionContext)
    (p : List TaskStep) :
    execute_task [] shot st goal events = (TaskStatus.failed, none) ∧
    (replan_apply ctx []).plan_steps = ctx.plan_steps ∧
    (replan_apply ctx []).current_step_index = ctx.current_step_index ∧
    (replan_apply ctx []).step_status = StepStatus.failed ∧
    (loop_handle_result ctx StepCompletionResult.need_replan p).2 = false :=
  ⟨rfl, rfl, rfl, rfl, rfl⟩

/-- A resolved skill string is one of the twelve canonical ones. -/
theorem resolve_skill_mem (s0 s : String) (h : resolve_skill_type s0 = some s) :
    VALID_SKILL_TYPES.contains s = true := by
  simp only [resolve_skill_type] at h
  by_cases h1 : VALID_SKILL_TYPES.contains s0 = true
  · rw [if_pos h1] at h
    cases h
    exact h1
  · rw [if_neg h1] at h
    by_cases h2 : VALID_SKILL_TYPES.contains (fix_invalid_skill_type s0) = true
    · rw [if_pos h2] at h
      cases h
      exact h2
    · rw [if_neg h2] at h
      cases h

/-- Every step the JSON parser keeps carries a canonical action kind. -/
theorem parse_plan_steps_canonical (datas : List StepData) (acc : List TaskStep)
    (hacc : acc.all step_kind_canonical = true) :
    (parse_plan_steps datas acc).all step_kind_canonical = true := by
  induction datas generalizing acc with
  | nil =>
    simp only [parse_plan_steps, List.all_reverse]
    exact hacc
  | cons d rest ih =>
    simp only [parse_plan_steps]
    cases hres : resolve_skill_type (d.skill_type.getD "单击") with
    | none => exact ih acc hacc
    | some s =>
      apply ih
      simp only [List.all_cons, Bool.and_eq_true]
      refine ⟨?_, hacc⟩
      have hs : s ∈ VALID_SKILL_TYPES := by
        simpa using resolve_skill_mem _ s hres
      simp only [step_kind_canonical, build_parsed_step]
      fin_cases hs <;> decide

/-- C6: a step whose skill string is off-grammar is first routed through
the deterministic repair table (`resolve_skill_type` is exactly that gate);
a step the gate cannot resolve is dropped from the plan, and every step of
every parsed plan carries one of the canonical operation kinds. -/
theorem c6_skill_gate (datas : List StepData) (d : StepData) (rest : List StepData)
    (acc : List TaskStep)
    (hdrop : resolve_skill_type (d.skill_type.getD "单击") = none) :
    (parse_plan datas).all step_kind_canonical = true ∧
    parse_plan_steps (d :: rest) acc = parse_plan_steps rest acc := by
  constructor
  · exact parse_plan_steps_canonical datas [] rfl
  · simp only [parse_plan_steps, hdrop]

/-- Witness for C6: a plan with a repairable and an unrepairable step; the
unrepairable one is dropped and all kept steps are canonical. -/
theorem c6_witness :
    resolve_skill_type (d_bad.skill_type.getD "单击") = none ∧
    ((parse_plan [d_fix, d_bad]).all step_kind_canonical = true ∧
     parse_plan_steps (d_bad :: []) [] = parse_plan_steps [] []) :=
  ⟨by decide, c6_skill_gate [d_fix, d_bad] d_bad [] [] (by decide)⟩

/-- C7 counterexample: the JSON parser copies the oracle's `step_number`
verbatim, so a one-step response numbered 5 yields a nonempty plan whose
numbering is not contiguous from 1. -/
theorem c7_counterexample :
    parse_plan [d5] ≠ [] ∧ contiguous_from_one (parse_plan [d5]) = false := by
  decide

/-- Appending one step to a numbered segment. -/
theorem numbered_from_append (l : List TaskStep) (k : Nat) (s : TaskStep) :
    numbered_from k (l ++ [s]) =
      (numbered_from k l && decide (s.step_number = k + l.length)) := by
  induction l generalizing k with
  | nil => simp [numbered_from]
  | cons a t ih =>
    simp only [List.cons_append, numbered_from, List.length_cons, List.append_eq]
    rw [ih]
    have hk : k + 1 + t.length = k + (t.length + 1) := by omega
    rw [hk, Bool.and_assoc]

/-- The text-fallback parser numbers its accepted lines 1, 2, 3, …. -/
theorem parse_text_lines_contiguous (lines : List String) (n : Nat)
    (acc : List TaskStep)
    (hacc : numbered_from 1 acc.reverse = true) (hlen : acc.length = n) :
    numbered_from 1 (parse_text_lines lines n acc) = true := by
  induction lines generalizing n acc with
  | nil => simpa [parse_text_lines] using hacc
  | cons l rest ih =>
    simp only [parse_text_lines]
    split
    · exact ih n acc hacc hlen
    · split
      · apply ih (n + 1)
        · simp only [List.reverse_cons, numbered_from_append, hacc,
                     List.length_reverse, hlen, Bool.true_and]
          simp [Nat.add_comm]
        · simp [hlen]
      · exact ih n acc hacc hlen

/-- C7 amended: plans built by the text-fallback parser are numbered
contiguously from 1; the JSON parser instead copies the oracle's
`step_number` field verbatim into the step (defaulting to the position
only when the field is absent), so contiguity holds there only if the
oracle numbered contiguously. -/
theorem c7_numbering (content : String) (d : StepData) (n : Nat) (s : String)
    (pos : Nat) (h : d.step_number = some n) :
    contiguous_from_one (parse_plan_from_text content) = true ∧
    (build_parsed_step d s pos).step_number = n := by
  constructor
  · exact parse_text_lines_contiguous (split_lines (str_strip content)) 0 [] rfl rfl
  · simp [build_parsed_step, h]

/-- Witness for C7's amended statement at a concrete response. -/
theorem c7_witness :
    d5.step_number = some 5 ∧
    (contiguous_from_one (parse_plan_from_text "1. 点击开始按钮
2. 输入微信") = true ∧
     (build_parsed_step d5 "单击" 1).step_number = 5) :=
  ⟨by decide, c7_numbering "1. 点击开始按钮
2. 输入微信" d5 5 "单击" 1 (by decide)⟩

/-- A poll sequence that only ever shows loading states times out. -/
theorem wait_aux_all_loading (ctx : ExecutionContext)
    (polls : List (Nat × ScreenStateAnalysis))
    (hall : polls.all
      (fun p => detect_screen_state ctx.last_screen_state p.2 == ScreenState.loading) = true) :
    wait_for_loading_aux ctx polls = (false, ctx) := by
  induction polls with
  | nil => rfl
  | cons p rest ih =>
    simp only [List.all_cons, Bool.and_eq_true, beq_iff_eq] at hall
    simp only [wait_for_loading_aux, hall.1, if_pos]
    exact ih hall.2

/-- C8 counterexample: a verification cycle that captures a loading screen
and keeps seeing loading at every poll past the cap returns `need_retry`,
not the `need_replan` (Error) path the claim requires. -/
theorem c8_counterexample :
    evaluate_step_and_task ctx_b step1 o_load = (StepCompletionResult.need_retry, ctx_b) ∧
    StepCompletionResult.need_retry ≠ StepCompletionResult.need_replan := by
  decide

/-- C8 amended: on a `Loading` classification the engine polls at the fixed
2-second interval up to the 10-second cap (at most `max_wait /
check_interval` polls are ever inspected), re-deriving the classification
at each poll; if the screen is still loading when the cap is reached the
wait reports failure and the evaluation returns `need_retry` with the
context unchanged — the NeedsRetry path, not the Error/NeedsReplan path. -/
theorem c8_loading_timeout (ctx : ExecutionContext) (step : TaskStep)
    (o : CycleOracles) (polls : List (Nat × ScreenStateAnalysis))
    (hld : detect_screen_state ctx.last_screen_state o.new_state = ScreenState.loading)
    (hall : (o.loading_polls.take (max_wait / check_interval)).all
      (fun p => detect_screen_state ctx.last_screen_state p.2 == ScreenState.loading) = true) :
    wait_for_loading_complete ctx polls =
      wait_for_loading_aux ctx (polls.take (max_wait / check_interval)) ∧
    wait_for_loading_complete ctx o.loading_polls = (false, ctx) ∧
    evaluate_step_and_task ctx step o = (StepCompletionResult.need_retry, ctx) := by
  have hw : wait_for_loading_complete ctx o.loading_polls = (false, ctx) := by
    unfold wait_for_loading_complete
    exact wait_aux_all_loading ctx _ hall
  refine ⟨rfl, hw, ?_⟩
  simp [evaluate_step_and_task, hld, hw]

/-- Witness for C8's amended statement at a concrete all-loading run. -/
theorem c8_witness :
    detect_screen_state ctx_b.last_screen_state o_load.new_state = ScreenState.loading ∧
    (o_load.loading_polls.take (max_wait / check_interval)).all
      (fun p => detect_screen_state ctx_b.last_screen_state p.2 == ScreenState.loading) = true ∧
    (wait_for_loading_complete ctx_b o_load.loading_polls =
       wait_for_loading_aux ctx_b (o_load.loading_polls.take (max_wait / check_interval)) ∧
     wait_for_loading_complete ctx_b o_load.loading_polls = (false, ctx_b) ∧
     evaluate_step_and_task ctx_b step1 o_load = (StepCompletionResult.need_retry, ctx_b)) :=
  ⟨by decide, by decide,
   c8_loading_timeout ctx_b step1 o_load o_load.loading_polls (by decide) (by decide)⟩

/-- C9 counterexample: "hello" is a single non-blank line, yet the fallback
parser produces no step from it — only lines starting with a digit, "-" or
"•" become steps. -/
theorem c9_counterexample :
    str_strip "hello" ≠ "" ∧ parse_plan_from_text "hello" = [] := by decide

/-- Every step the text-fallback parser emits is a click on the line's own
text. -/
theorem parse_text_lines_shape (lines : List String) (n : Nat)
    (acc : List TaskStep) (hacc : acc.all text_step_shape = true) :
    (parse_text_lines lines n acc).all text_step_shape = true := by
  induction lines generalizing n acc with
  | nil =>
    simp only [parse_text_lines, List.all_reverse]
    exact hacc
  | cons l rest ih =>
    simp only [parse_text_lines]
    split
    · exact ih n acc hacc
    · split
      · apply ih
        simp only [List.all_cons, Bool.and_eq_true]
        exact ⟨by simp [text_step_shape], hacc⟩
      · exact ih n acc hacc

/-- C9 amended: on total JSON parse failure the fallback parser turns each
non-blank line that starts with a digit, "-" or "•" into a single
click-type step whose target and instruction are the line's cleaned text
(leading numbering characters stripped); any other non-blank line is
skipped and yields no step; the parser is total, so `createPlan` always
returns a well-formed (possibly empty) plan. -/
theorem c9_text_fallback (content : String) (l : String) (rest : List String)
    (n : Nat) (acc : List TaskStep)
    (hnb : str_strip l ≠ "")
    (hns : is_step_line (str_strip l) = false) :
    (parse_plan_from_text content).all text_step_shape = true ∧
    parse_text_lines (l :: rest) n acc = parse_text_lines rest n acc := by
  constructor
  · exact parse_text_lines_shape _ 0 [] rfl
  · simp [parse_text_lines, hnb, hns]

/-- Witness for C9's amended statement at a concrete response. -/
theorem c9_witness :
    str_strip "note" ≠ "" ∧
    is_step_line (str_strip "note") = false ∧
    ((parse_plan_from_text "1. 点击开始按钮
note").all text_step_shape = true ∧
     parse_text_lines ("note" :: []) 0 [] = parse_text_lines [] 0 []) :=
  ⟨by decide, by decide,
   c9_text_fallback "1. 点击开始按钮
note" "note" [] 0 [] (by decide) (by decide)⟩

/-- With the last-input timestamp unset, the idle measure is 0. -/
theorem seconds_none (ctx : ExecutionContext) (now : Nat)
    (h : ctx.last_user_input_time = none) :
    seconds_since_last_input ctx now = 0 := by
  simp [seconds_since_last_input, h]

/-- The pre-wait phase never touches the last-input timestamp. -/
theorem pre_wait_halt_fields (ctx ctx1 : ExecutionContext) (a : Option Nat)
    (h : pre_wait ctx = PreWait.halt ctx1 a) :
    ctx1.last_user_input_time = ctx.last_user_input_time := by
  unfold pre_wait at h
  split at h
  · cases h
    rfl
  · split at h
    · cases h
      rfl
    · split at h
      · cases h
        rfl
      · cases h

/-- While the last-input timestamp is unset, no sequence of no-input waits
ever asks a question or sets the timestamp. -/
theorem no_input_no_questions (nows : List Nat) (ctx : ExecutionContext)
    (ann : List Nat) (waits qs : Nat)
    (hnone : ctx.last_user_input_time = none) (hpos : 0 < ctx.idle_timeout) :
    (execution_loop (nows.map LoopEvent.no_input) ctx ann waits qs).questions = qs ∧
    (execution_loop (nows.map LoopEvent.no_input) ctx ann waits
        qs).ctx.last_user_input_time = none := by
  induction nows generalizing ctx ann waits qs with
  | nil =>
    simp only [List.map_nil, execution_loop]
    cases hpw : pre_wait ctx with
    | halt ctx1 a =>
      have hf := pre_wait_halt_fields ctx ctx1 a hpw
      simp [hf, hnone]
    | proceed step => simp [hnone]
  | cons now rest ih =>
    simp only [List.map_cons, execution_loop]
    cases hpw : pre_wait ctx with
    | halt ctx1 a =>
      have hf := pre_wait_halt_fields ctx ctx1 a hpw
      simp [hf, hnone]
    | proceed step =>
      simp only [seconds_since_last_input, hnone]
      rw [if_neg (by omega : ¬ ((0 : Nat) ≥ ctx.idle_timeout))]
      exact ih _ _ _ _ (by simp [hnone]) (by simpa using hpos)

/-- C10: the idle-timeout branch is unreachable before the first input of
the run — with the last-input timestamp unset, `seconds_since_last_input`
is 0, so however many no-input waits elapse, no "need help?" question is
emitted and the timestamp stays unset. -/
theorem c10_no_idle_before_input (ctx : ExecutionContext) (ann : List Nat)
    (waits qs : Nat) (nows : List Nat) (now0 : Nat)
    (hnone : ctx.last_user_input_time = none) (hpos : 0 < ctx.idle_timeout) :
    seconds_since_last_input ctx now0 = 0 ∧
    (execution_loop (nows.map LoopEvent.no_input) ctx ann waits qs).questions = qs ∧
    (execution_loop (nows.map LoopEvent.no_input) ctx ann waits
        qs).ctx.last_user_input_time = none := by
  refine ⟨?_, ?_, ?_⟩
  · simp [seconds_since_last_input, hnone]
  · exact (no_input_no_questions nows ctx ann waits qs hnone hpos).1
  · exact (no_input_no_questions nows ctx ann waits qs hnone hpos).2

/-- Witness for C10 on a fresh context facing three event-less waits. -/
theorem c10_witness :
    ctx_b.last_user_input_time = none ∧
    0 < ctx_b.idle_timeout ∧
    (seconds_since_last_input ctx_b 12345 = 0 ∧
     (execution_loop ([40, 80, 120].map LoopEvent.no_input) ctx_b [] 0 0).questions = 0 ∧
     (execution_loop ([40, 80, 120].map LoopEvent.no_input) ctx_b [] 0
         0).ctx.last_user_input_time = none) :=
  ⟨by decide, by decide,
   c10_no_idle_before_input ctx_b [] 0 0 [40, 80, 120] 12345 (by decide) (by decide)⟩

end ElderHelper
